import Mathlib

/-!
Verification development for the online-learning platform (an event-log-driven
progressive-learning engine plus an HTTP CRUD layer).

The repository's API layer (`core/api/experiment.py`) is embedded directly from
its source.  The progressive-learning engine itself (`logic.do_progressive_learning`,
the message bus and stream-processor backends) is not part of the source tree here,
so those components are modelled from the specification, section by section; each
such definition says so in its doc comment.
-/

namespace Orac

/-- A record of the append-only event log (spec §3, "Record"):
`{topic, key, created_at, value}`, immutable once appended.  The opaque value
bytes are modelled as a natural number. -/
structure Record where
  topic : String
  key : String
  created_at : Nat
  value : Nat
deriving DecidableEq, Repr

/-- Modelled from the spec: the Message Bus backend state (spec §4.1 and §2
"Event Log") — the append-only log together with the clock used for
`timestamp=now`.  The bus code is not in the source tree; the clock is strictly
increasing, so rows in append order are also in `created_at` order, matching the
ordering guarantee of §4.1. -/
structure Bus where
  log : List Record
  clock : Nat
deriving Repr

def Bus.empty : Bus := ⟨[], 0⟩

/-- Modelled from the spec (§4.1): `append(topic, key, value, timestamp=now)`
appends one durable record stamped with the current clock. -/
def Bus.append (b : Bus) (topic key : String) (v : Nat) : Bus :=
  ⟨b.log ++ [⟨topic, key, b.clock, v⟩], b.clock + 1⟩

/-- A projected view row `(key, timestamp, value)` (spec §4.2). -/
structure Row where
  key : String
  ts : Nat
  value : Nat
deriving DecidableEq, Repr

/-- Modelled from the spec (§3, "ViewDefinition"): the declarative queries used by
the repository's test select one topic from the `messages` table and project
`key/created_at/value`, so a view is characterised by its topic. -/
structure ViewDef where
  topic : String

/-- `timestamp > since`, with `since = none` meaning unbounded (spec §4.2). -/
def sinceLt : Option Nat → Nat → Bool
  | none, _ => true
  | some c, t => decide (c < t)

/-- Modelled from the spec (§4.2, `evaluate`): issue the view's query against the
bus, bounded by `timestamp > since`, projecting records to `(key, ts, value)`
rows in `created_at` order. -/
def evalView (v : ViewDef) (since : Option Nat) (log : List Record) : List Row :=
  (log.filter fun r => r.topic == v.topic && sinceLt since r.created_at).map
    fun r => ⟨r.key, r.created_at, r.value⟩

/-- The opaque model capability (spec §6): exactly two operations,
`predict(feature_value) → prediction` and `learn(feature_value, label_value)`.
`predict` is a pure function of its input plus model state (spec §4.4 step 6);
`learn` advances the model state.  `σ` is the opaque model-state type. -/
structure MLModel (σ : Type) where
  predict : σ → Nat → Nat
  learn : σ → Nat → Nat → σ

/-- PendingPrediction (spec §3): `{key, feature_value, predicted_value, produced_at}`,
a prediction awaiting its matching label. -/
structure Pending where
  key : String
  feature : Nat
  predicted : Nat
  produced_at : Nat
deriving DecidableEq, Repr

/-- Experiment mutable state (spec §3, "Experiment"): model snapshot, cursor and
the running counters, plus the logical pending-prediction index. -/
structure Exp (σ : Type) where
  model_state : σ
  cursor : Option Nat
  n_predictions : Nat
  n_learnings : Nat
  correct_count : Nat
  pending : List Pending

variable {σ : Type}

/-- A fresh experiment: initial model snapshot, null cursor, zero counters. -/
def freshExp (s : σ) : Exp σ := ⟨s, none, 0, 0, 0, []⟩

/-- Derived accuracy (spec §3): `correct_count / n_learnings`, `0` when
`n_learnings = 0`. -/
def accuracy (e : Exp σ) : ℚ :=
  if e.n_learnings = 0 then 0 else (e.correct_count : ℚ) / (e.n_learnings : ℚ)

/-- Record a pending prediction, replacing any pre-existing one for the same key
(spec §4.4 step 2b, "latest feature wins"). -/
def upsertPending (ps : List Pending) (p : Pending) : List Pending :=
  (ps.filter fun q => q.key != p.key) ++ [p]

/-- Predict phase for one feature row (spec §4.4 step 2): call `predict`, record
the pending prediction, increment `n_predictions`. -/
def predictStep (m : MLModel σ) (e : Exp σ) (r : Row) : Exp σ :=
  { e with
    pending := upsertPending e.pending ⟨r.key, r.value, m.predict e.model_state r.value, r.ts⟩
    n_predictions := e.n_predictions + 1 }

/-- Learn phase for one target row (spec §4.4 step 3): if no pending prediction
exists for the key, skip; otherwise tally correctness of the pre-label
prediction, call `learn`, increment `n_learnings`, consume the pending entry. -/
def learnStep (m : MLModel σ) (e : Exp σ) (r : Row) : Exp σ :=
  match e.pending.find? (fun p => p.key == r.key) with
  | none => e
  | some p =>
    { e with
      model_state := m.learn e.model_state p.feature r.value
      correct_count := e.correct_count + (if p.predicted = r.value then 1 else 0)
      n_learnings := e.n_learnings + 1
      pending := e.pending.filter fun q => q.key != r.key }

/-- Raise a cursor to cover one more processed timestamp. -/
def bumpCursor : Option Nat → Nat → Option Nat
  | none, t => some t
  | some c, t => some (max c t)

/-- Spec §4.4 step 4: `max(timestamp of all rows processed, previous cursor)`. -/
def cursorAfter (c : Option Nat) (rows : List Row) : Option Nat :=
  rows.foldl (fun c r => bumpCursor c r.ts) c

/-- Modelled from the spec (§4.4, `run_cycle` — the engine code
`logic.do_progressive_learning` is not in the source tree): evaluate the feature
view since the cursor and run the predict phase in timestamp order, evaluate the
target view since the cursor and run the learn phase in timestamp order, then
advance the cursor monotonically over all processed rows. -/
def runCycle (m : MLModel σ) (fv tv : ViewDef) (log : List Record) (e : Exp σ) : Exp σ :=
  let frows := evalView fv e.cursor log
  let trows := evalView tv e.cursor log
  let e2 := trows.foldl (learnStep m) (frows.foldl (predictStep m) e)
  { e2 with cursor := cursorAfter e.cursor (frows ++ trows) }

/-! ### The phishing scenario (spec §8, scenarios A–C; `test_phishing`) -/

def featTopic : String := "phishing_project_features"
def targTopic : String := "phishing_project_targets"
def featView : ViewDef := ⟨featTopic⟩
def targView : ViewDef := ⟨targTopic⟩

/-- Send a batch of `(topic, key, value)` messages to the bus in order. -/
def sendAll (entries : List (String × String × Nat)) (b : Bus) : Bus :=
  entries.foldl (fun b e => b.append e.1 e.2.1 e.2.2) b

/-- Scenario A bus: 10 feature events for keys `"0"`–`"9"` (sample values
`x 0`–`x 9`), no labels, as sent by `test_phishing` before the first cycle. -/
def busA (x : Nat → Nat) : Bus :=
  sendAll [(featTopic, "0", x 0), (featTopic, "1", x 1), (featTopic, "2", x 2),
           (featTopic, "3", x 3), (featTopic, "4", x 4), (featTopic, "5", x 5),
           (featTopic, "6", x 6), (featTopic, "7", x 7), (featTopic, "8", x 8),
           (featTopic, "9", x 9)] Bus.empty

/-- Scenario B bus: continuing A, 10 label events for keys `"0"`–`"9"`
(label values `y 0`–`y 9`). -/
def busB (x y : Nat → Nat) : Bus :=
  sendAll [(targTopic, "0", y 0), (targTopic, "1", y 1), (targTopic, "2", y 2),
           (targTopic, "3", y 3), (targTopic, "4", y 4), (targTopic, "5", y 5),
           (targTopic, "6", y 6), (targTopic, "7", y 7), (targTopic, "8", y 8),
           (targTopic, "9", y 9)] (busA x)

/-- Scenario C bus: continuing B, 5 further feature+label pairs for keys
`"10"`–`"14"`, sent alternately as in the test. -/
def busC (x y : Nat → Nat) : Bus :=
  sendAll [(featTopic, "10", x 10), (targTopic, "10", y 10),
           (featTopic, "11", x 11), (targTopic, "11", y 11),
           (featTopic, "12", x 12), (targTopic, "12", y 12),
           (featTopic, "13", x 13), (targTopic, "13", y 13),
           (featTopic, "14", x 14), (targTopic, "14", y 14)] (busB x y)

/-- Experiment state after Scenario A: one cycle from fresh over `busA`. -/
def stateA (m : MLModel σ) (s : σ) (x : Nat → Nat) : Exp σ :=
  runCycle m featView targView (busA x).log (freshExp s)

/-- Experiment state after Scenario B: one further cycle over `busB`. -/
def stateB (m : MLModel σ) (s : σ) (x y : Nat → Nat) : Exp σ :=
  runCycle m featView targView (busB x y).log (stateA m s x)

/-- Experiment state after Scenario C: one further cycle over `busC`. -/
def stateC (m : MLModel σ) (s : σ) (x y : Nat → Nat) : Exp σ :=
  runCycle m featView targView (busC x y).log (stateB m s x y)

/-- The pending predictions accumulated by Scenario A's predict phase: the ten
predictions, each produced from the initial model state `s` without seeing any
label. -/
def pendingA (m : MLModel σ) (s : σ) (x : Nat → Nat) : List Pending :=
  [⟨"0", x 0, m.predict s (x 0), 0⟩, ⟨"1", x 1, m.predict s (x 1), 1⟩,
   ⟨"2", x 2, m.predict s (x 2), 2⟩, ⟨"3", x 3, m.predict s (x 3), 3⟩,
   ⟨"4", x 4, m.predict s (x 4), 4⟩, ⟨"5", x 5, m.predict s (x 5), 5⟩,
   ⟨"6", x 6, m.predict s (x 6), 6⟩, ⟨"7", x 7, m.predict s (x 7), 7⟩,
   ⟨"8", x 8, m.predict s (x 8), 8⟩, ⟨"9", x 9, m.predict s (x 9), 9⟩]

/-- The model state after Scenario B's learn phase: the ten learn calls applied
in key order. -/
def modelB (m : MLModel σ) (s : σ) (x y : Nat → Nat) : σ :=
  m.learn (m.learn (m.learn (m.learn (m.learn (m.learn (m.learn (m.learn (m.learn
    (m.learn s (x 0) (y 0)) (x 1) (y 1)) (x 2) (y 2)) (x 3) (y 3)) (x 4) (y 4))
    (x 5) (y 5)) (x 6) (y 6)) (x 7) (y 7)) (x 8) (y 8)) (x 9) (y 9)

/-- The correctness tally of Scenario B: one point per key whose pre-label
prediction (made from the initial state `s`) equals the true label. -/
def correctB (m : MLModel σ) (s : σ) (x y : Nat → Nat) : Nat :=
  (if m.predict s (x 0) = y 0 then 1 else 0) + (if m.predict s (x 1) = y 1 then 1 else 0)
    + (if m.predict s (x 2) = y 2 then 1 else 0) + (if m.predict s (x 3) = y 3 then 1 else 0)
    + (if m.predict s (x 4) = y 4 then 1 else 0) + (if m.predict s (x 5) = y 5 then 1 else 0)
    + (if m.predict s (x 6) = y 6 then 1 else 0) + (if m.predict s (x 7) = y 7 then 1 else 0)
    + (if m.predict s (x 8) = y 8 then 1 else 0) + (if m.predict s (x 9) = y 9 then 1 else 0)

/-- The model state after Scenario C: five further learn calls on top of `modelB`. -/
def modelC (m : MLModel σ) (s : σ) (x y : Nat → Nat) : σ :=
  m.learn (m.learn (m.learn (m.learn (m.learn (modelB m s x y)
    (x 10) (y 10)) (x 11) (y 11)) (x 12) (y 12)) (x 13) (y 13)) (x 14) (y 14)

/-- The correctness tally added by Scenario C: the five new predictions are all
produced from the Scenario B model snapshot `modelB`, before their labels are
consumed. -/
def correctCnew (m : MLModel σ) (s : σ) (x y : Nat → Nat) : Nat :=
  (if m.predict (modelB m s x y) (x 10) = y 10 then 1 else 0)
    + (if m.predict (modelB m s x y) (x 11) = y 11 then 1 else 0)
    + (if m.predict (modelB m s x y) (x 12) = y 12 then 1 else 0)
    + (if m.predict (modelB m s x y) (x 13) = y 13 then 1 else 0)
    + (if m.predict (modelB m s x y) (x 14) = y 14 then 1 else 0)

/-! ### Reachable system states (for the counter-ordering invariant) -/

/-- One experiment together with the shared bus. -/
structure Sys (σ : Type) where
  bus : Bus
  exp : Exp σ

/-- All system states reachable from a fresh experiment on an empty bus by any
sequence of event appends and engine cycles (spec §3 "Global invariants"). -/
inductive Reachable (m : MLModel σ) (fv tv : ViewDef) (s : σ) : Sys σ → Prop
  | init : Reachable m fv tv s ⟨Bus.empty, freshExp s⟩
  | append (topic key : String) (v : Nat) {st : Sys σ} :
      Reachable m fv tv s st → Reachable m fv tv s ⟨st.bus.append topic key v, st.exp⟩
  | cycle {st : Sys σ} :
      Reachable m fv tv s st →
      Reachable m fv tv s ⟨st.bus, runCycle m fv tv st.bus.log st.exp⟩

/-- A trivial concrete model capability, used to instantiate theorems at a
concrete input. -/
def trivModel : MLModel Unit := ⟨fun _ _ => 0, fun _ _ _ => ()⟩

/-! ### Two independently configured experiments on one stream (Scenario D) -/

/-- An external interaction: a producer publishes an event, or the experiments
are triggered for one engine cycle each. -/
inductive Op where
  | send (topic key : String) (v : Nat)
  | trigger

/-- One-experiment system: apply one interaction. -/
def applyOp (m : MLModel σ) (fv tv : ViewDef) (st : Sys σ) : Op → Sys σ
  | .send topic key v => ⟨st.bus.append topic key v, st.exp⟩
  | .trigger => ⟨st.bus, runCycle m fv tv st.bus.log st.exp⟩

/-- One-experiment system: apply a whole interaction history. -/
def runOps (m : MLModel σ) (fv tv : ViewDef) (st : Sys σ) (ops : List Op) : Sys σ :=
  ops.foldl (applyOp m fv tv) st

/-- Two independently configured experiments consuming the same views from the
same bus (Scenario D). -/
structure Sys2 (σ₁ σ₂ : Type) where
  bus : Bus
  exp1 : Exp σ₁
  exp2 : Exp σ₂

variable {σ₁ σ₂ : Type}

/-- Two-experiment system: a send appends to the shared bus; a trigger runs one
cycle of each experiment against the shared log. -/
def applyOp2 (m₁ : MLModel σ₁) (m₂ : MLModel σ₂) (fv tv : ViewDef)
    (st : Sys2 σ₁ σ₂) : Op → Sys2 σ₁ σ₂
  | .send topic key v => ⟨st.bus.append topic key v, st.exp1, st.exp2⟩
  | .trigger =>
      ⟨st.bus, runCycle m₁ fv tv st.bus.log st.exp1, runCycle m₂ fv tv st.bus.log st.exp2⟩

/-- Two-experiment system: apply a whole interaction history. -/
def runOps2 (m₁ : MLModel σ₁) (m₂ : MLModel σ₂) (fv tv : ViewDef)
    (st : Sys2 σ₁ σ₂) (ops : List Op) : Sys2 σ₁ σ₂ :=
  ops.foldl (applyOp2 m₁ m₂ fv tv) st

/-- Modelled from the spec and `create_experiment` (`core/api/experiment.py`
lines 50–57): after the experiment row is persisted with its fresh state, the
project's job runner immediately executes `do_progressive_learning` for it; with
the synchronous backend this runs one engine cycle inline before the creation
call returns, over the log as it stands at creation time. -/
def createAndRunSync (m : MLModel σ) (fv tv : ViewDef) (bus : Bus) (s : σ) : Exp σ :=
  runCycle m fv tv bus.log (freshExp s)

end Orac

namespace OracApi

/-- A deserialized Python object, abstracted to its attribute members; each
member is marked callable or not — the shape that the structural
`isinstance` check of a `runtime_checkable` Protocol inspects. -/
structure PyObj where
  members : List (String × Bool)

/-- `isinstance(model_obj, Model)` for the `Model` Protocol of
`core/api/experiment.py` lines 16–22: a duck-typed structural check that the two
members `predict` and `learn` are exposed and callable. -/
def isModelInstance (o : PyObj) : Bool :=
  (o.members.any fun mb => mb.1 == "predict" && mb.2)
    && (o.members.any fun mb => mb.1 == "learn" && mb.2)

/-- The experiment row sent in the creation request (`models.Experiment`):
entity names plus the base64-encoded serialized model payload. -/
structure ExperimentReq where
  name : String
  project_name : String
  feature_set_name : String
  model : String

/-- The experiment row as persisted by `create_experiment`: the request's names
plus the `model_state` snapshot the handler assigns before `session.add`. -/
structure StoredExp where
  name : String
  project_name : String
  feature_set_name : String
  model_state : List Nat
deriving DecidableEq, Repr

/-- Entity storage as seen by the handlers: project rows (by primary-key name)
and experiment rows. -/
structure DB where
  projects : List String
  experiments : List StoredExp
deriving DecidableEq, Repr

/-- Outcome of `POST /api/experiment` as the caller observes it. -/
inductive CreateResult where
  | created (e : StoredExp)   -- 201, row persisted
  | notFound                  -- 404 HTTPException "Project not found"
  | validationError           -- 400 HTTPException "Model does not implement the expected protocol"
  | decodeError               -- base64/dill raised; propagates unhandled
deriving DecidableEq, Repr

/-- `create_experiment` (`core/api/experiment.py` lines 33–59), embedded over
abstract (de)serialization capabilities: `b64` is `base64.b64decode` (`none`
when it raises), `loads` is `dill.loads` (`none` when it raises), `dumps` is
`dill.dumps`.  The project lookup happens first; then the payload is decoded and
deserialized; then the structural protocol check gates persistence; on success
the handler stores `model_state := dill.dumps(model_obj)` and appends the row.
(The post-persist job-runner trigger is treated at the engine level by
`Orac.createAndRunSync`.) -/
def create_experiment (b64 : String → Option (List Nat)) (loads : List Nat → Option PyObj)
    (dumps : PyObj → List Nat) (db : DB) (req : ExperimentReq) : CreateResult × DB :=
  if req.project_name ∈ db.projects then
    match b64 req.model with
    | none => (.decodeError, db)
    | some bs =>
      match loads bs with
      | none => (.decodeError, db)
      | some obj =>
        if isModelInstance obj then
          let stored : StoredExp := ⟨req.name, req.project_name, req.feature_set_name, dumps obj⟩
          (.created stored, ⟨db.projects, db.experiments ++ [stored]⟩)
        else (.validationError, db)
  else (.notFound, db)

/-- Outcome of `PUT /api/experiment/{name}/unpause` as the caller observes it. -/
inductive UnpauseResult where
  | ok              -- 200, cycle triggered via the project's job runner
  | notFound        -- 404 HTTPException (no handler path produces this)
  | attributeError  -- unhandled AttributeError: `None` has no attribute `project`
deriving DecidableEq, Repr

/-- `unpause_experiment` (`core/api/experiment.py` lines 62–69): the handler
fetches the experiment by name and immediately dereferences
`experiment.project.job_runner` with no `None` check, so a missing experiment
raises an unhandled `AttributeError` instead of a 404. -/
def unpause_experiment (db : DB) (name : String) : UnpauseResult :=
  match db.experiments.find? (fun e => e.name == name) with
  | none => .attributeError
  | some _ => .ok

end OracApi

/-! ## Theorems -/

namespace Orac

/-- Scenario A evaluated: ten predictions are made from the initial model state,
nothing is learned, the cursor covers timestamps `0`–`9`. -/
theorem stateA_eq (m : MLModel σ) (s : σ) (x : Nat → Nat) :
    stateA m s x = ⟨s, some 9, 10, 0, 0, pendingA m s x⟩ := by
  simp only [stateA, runCycle, busA, sendAll, Bus.append, Bus.empty, evalView, featView,
    targView, featTopic, targTopic, sinceLt, cursorAfter, bumpCursor, freshExp, pendingA,
    List.foldl_cons, List.foldl_nil, List.filter_cons, List.filter_nil, List.map_cons,
    List.map_nil, List.cons_append, List.nil_append, List.find?_cons, List.find?_nil,
    String.reduceEq, String.reduceBEq]
  unfold predictStep
  simp only [upsertPending, List.filter_cons, List.filter_nil, List.cons_append,
    List.nil_append, bne, String.reduceBEq, Bool.not_true, Bool.not_false]
  simp [upsertPending, List.filter_cons]

end Orac

namespace OracThm

open Orac

variable {σ : Type}

/-- C1: starting from a fresh experiment, appending 10 feature events (keys 0–9,
no label events) and triggering one engine cycle yields `n_predictions = 10`,
`n_learnings = 0`, and `accuracy = 0`. -/
theorem c1_scenarioA_counts (m : MLModel σ) (s : σ) (x : Nat → Nat) :
    (stateA m s x).n_predictions = 10 ∧ (stateA m s x).n_learnings = 0 ∧
      accuracy (stateA m s x) = 0 := by
  rw [stateA_eq]
  exact ⟨rfl, rfl, rfl⟩

end OracThm

namespace Orac

/-- Scenario B evaluated: the ten labels are matched against the pending
predictions of Scenario A in key order; every key learns, the tally counts exact
matches of the pre-label predictions, the cursor covers timestamps `10`–`19`. -/
theorem stateB_eq (m : MLModel σ) (s : σ) (x y : Nat → Nat) :
    stateB m s x y = ⟨modelB m s x y, some 19, 10, 10, correctB m s x y, []⟩ := by
  unfold stateB
  rw [stateA_eq]
  simp only [runCycle, busB, busA, sendAll, Bus.append, Bus.empty, evalView, featView,
    targView, featTopic, targTopic, sinceLt, cursorAfter, bumpCursor, pendingA,
    List.foldl_cons, List.foldl_nil, List.filter_cons, List.filter_nil, List.map_cons,
    List.map_nil, List.cons_append, List.nil_append,
    String.reduceEq, String.reduceBEq]
  unfold learnStep
  simp [modelB, correctB, List.find?_cons, List.find?_nil]

end Orac

namespace OracThm

open Orac

variable {σ : Type}

/-- C2: continuing from the Scenario A state, appending 10 label events for keys
0–9 and triggering one engine cycle yields `n_learnings = 10` (with
`n_predictions` still 10), and accuracy equal to the fraction of the 10
predictions whose value — produced from the initial model state, before the
label was seen — exactly equals the true label. -/
theorem c2_scenarioB_stats (m : MLModel σ) (s : σ) (x y : Nat → Nat) :
    (stateB m s x y).n_predictions = 10 ∧ (stateB m s x y).n_learnings = 10 ∧
      accuracy (stateB m s x y) =
        (((Finset.range 10).filter fun i => m.predict s (x i) = y i).card : ℚ) / 10 := by
  have hcard : (((Finset.range 10).filter fun i => m.predict s (x i) = y i).card)
      = correctB m s x y := by
    rw [Finset.card_filter]
    simp only [Finset.sum_range_succ, Finset.sum_range_zero, correctB]
    omega
  rw [stateB_eq]
  refine ⟨rfl, rfl, ?_⟩
  simp only [accuracy]
  rw [hcard]
  norm_num

end OracThm

namespace Orac

/-- Scenario C evaluated: five new predictions are made from the Scenario B
model snapshot, then the five labels are learned; the tally is cumulative and
the cursor covers timestamps `20`–`29`. -/
theorem stateC_eq (m : MLModel σ) (s : σ) (x y : Nat → Nat) :
    stateC m s x y = ⟨modelC m s x y, some 29, 15, 15,
      correctB m s x y + correctCnew m s x y, []⟩ := by
  unfold stateC
  rw [stateB_eq]
  simp only [runCycle, busC, busB, busA, sendAll, Bus.append, Bus.empty, evalView, featView,
    targView, featTopic, targTopic, sinceLt, cursorAfter, bumpCursor,
    List.foldl_cons, List.foldl_nil, List.filter_cons, List.filter_nil, List.map_cons,
    List.map_nil, List.cons_append, List.nil_append,
    String.reduceEq, String.reduceBEq]
  unfold predictStep learnStep
  simp [upsertPending, modelC, correctCnew, List.find?_cons, List.find?_nil]
  omega

end Orac

namespace OracThm

open Orac

variable {σ : Type}

/-- C3: continuing from the Scenario B state, appending 5 further feature+label
pairs (keys 10–14) and triggering one engine cycle yields `n_predictions = 15`,
`n_learnings = 15`, a cumulative correct count (Scenario B's tally plus the five
new exact-match points), and accuracy recomputed as that cumulative correct
count divided by 15. -/
theorem c3_scenarioC_stats (m : MLModel σ) (s : σ) (x y : Nat → Nat) :
    (stateC m s x y).n_predictions = 15 ∧ (stateC m s x y).n_learnings = 15 ∧
      (stateC m s x y).correct_count
        = (stateB m s x y).correct_count + correctCnew m s x y ∧
      accuracy (stateC m s x y) = ((stateC m s x y).correct_count : ℚ) / 15 := by
  rw [stateC_eq, stateB_eq]
  refine ⟨rfl, rfl, rfl, ?_⟩
  simp only [accuracy]
  norm_num

end OracThm

namespace Orac

/-- Removing by key shortens a pending list when the key occurs in it. -/
theorem length_filter_lt_of_mem_not {α : Type} (p : α → Bool) (l : List α) (a : α)
    (hmem : a ∈ l) (hpa : p a = false) : (l.filter p).length < l.length := by
  induction l with
  | nil => cases hmem
  | cons b l ih =>
    rcases List.mem_cons.mp hmem with rfl | hmem'
    · have := List.length_filter_le p l
      simp [List.filter_cons, hpa]
      omega
    · have := ih hmem'
      cases hpb : p b <;> simp [List.filter_cons, hpb] <;> omega

/-- The running invariant behind the counter ordering: every learning consumed a
pending prediction, and every pending prediction was counted by
`n_predictions`. -/
def counterInv (e : Exp σ) : Prop :=
  e.n_learnings + e.pending.length ≤ e.n_predictions

theorem counterInv_predictStep (m : MLModel σ) (e : Exp σ) (r : Row)
    (h : counterInv e) : counterInv (predictStep m e r) := by
  have hf := List.length_filter_le (fun q => q.key != r.key) e.pending
  simp only [counterInv, predictStep, upsertPending, List.length_append,
    List.length_cons, List.length_nil] at h ⊢
  omega

theorem counterInv_learnStep (m : MLModel σ) (e : Exp σ) (r : Row)
    (h : counterInv e) : counterInv (learnStep m e r) := by
  unfold learnStep
  cases hf : e.pending.find? (fun p => p.key == r.key) with
  | none => exact h
  | some p =>
    have hmem : p ∈ e.pending := List.mem_of_find?_eq_some hf
    have hkey : (p.key == r.key) = true := by simpa using List.find?_some hf
    have hlt : (e.pending.filter fun q => q.key != r.key).length < e.pending.length := by
      refine length_filter_lt_of_mem_not _ _ p hmem ?_
      simp [bne, hkey]
    simp only [counterInv] at h ⊢
    omega

theorem counterInv_foldl_predict (m : MLModel σ) (rows : List Row) (e : Exp σ)
    (h : counterInv e) : counterInv (rows.foldl (predictStep m) e) := by
  induction rows generalizing e with
  | nil => exact h
  | cons r rows ih => exact ih _ (counterInv_predictStep m e r h)

theorem counterInv_foldl_learn (m : MLModel σ) (rows : List Row) (e : Exp σ)
    (h : counterInv e) : counterInv (rows.foldl (learnStep m) e) := by
  induction rows generalizing e with
  | nil => exact h
  | cons r rows ih => exact ih _ (counterInv_learnStep m e r h)

theorem counterInv_runCycle (m : MLModel σ) (fv tv : ViewDef) (log : List Record)
    (e : Exp σ) (h : counterInv e) : counterInv (runCycle m fv tv log e) := by
  unfold runCycle
  exact counterInv_foldl_learn m _ _ (counterInv_foldl_predict m _ _ h)

theorem counterInv_reachable (m : MLModel σ) (fv tv : ViewDef) (s : σ) (st : Sys σ)
    (h : Reachable m fv tv s st) : counterInv st.exp := by
  induction h with
  | init => simp [counterInv, freshExp]
  | append topic key v _ ih => exact ih
  | cycle _ ih => exact counterInv_runCycle m fv tv _ _ ih

end Orac

namespace OracThm

open Orac

variable {σ : Type}

/-- C4: for every reachable experiment state — after any sequence of event
appends and engine cycles from a fresh experiment — `n_predictions ≥ n_learnings`. -/
theorem c4_counter_ordering (m : MLModel σ) (fv tv : ViewDef) (s : σ) (st : Sys σ)
    (h : Reachable m fv tv s st) : st.exp.n_predictions ≥ st.exp.n_learnings := by
  have hinv := counterInv_reachable m fv tv s st h
  have := Nat.le_add_right st.exp.n_learnings st.exp.pending.length
  exact le_trans this hinv

/-- C4 witness: the invariant holds on a concrete reachable state — one feature
event appended and one engine cycle run from a fresh experiment. -/
theorem c4_counter_ordering_witness :
    Reachable trivModel featView targView ()
        ⟨⟨[⟨featTopic, "0", 0, 5⟩], 1⟩,
          runCycle trivModel featView targView [⟨featTopic, "0", 0, 5⟩] (freshExp ())⟩ ∧
      (runCycle trivModel featView targView [⟨featTopic, "0", 0, 5⟩]
          (freshExp ())).n_predictions ≥
        (runCycle trivModel featView targView [⟨featTopic, "0", 0, 5⟩]
          (freshExp ())).n_learnings := by
  have hreach : Reachable trivModel featView targView ()
      ⟨⟨[⟨featTopic, "0", 0, 5⟩], 1⟩,
        runCycle trivModel featView targView [⟨featTopic, "0", 0, 5⟩] (freshExp ())⟩ :=
    Reachable.cycle (Reachable.append featTopic "0" 5 Reachable.init)
  exact ⟨hreach, c4_counter_ordering trivModel featView targView () _ hreach⟩

end OracThm

namespace Orac

variable {σ₁ σ₂ : Type}

/-- In the two-experiment system, the shared bus and the first experiment evolve
exactly as they would if the first experiment ran alone. -/
theorem runOps2_projects_fst (m₁ : MLModel σ₁) (m₂ : MLModel σ₂) (fv tv : ViewDef)
    (ops : List Op) (st : Sys2 σ₁ σ₂) :
    (runOps2 m₁ m₂ fv tv st ops).bus = (runOps m₁ fv tv ⟨st.bus, st.exp1⟩ ops).bus ∧
      (runOps2 m₁ m₂ fv tv st ops).exp1 = (runOps m₁ fv tv ⟨st.bus, st.exp1⟩ ops).exp := by
  induction ops generalizing st with
  | nil => exact ⟨rfl, rfl⟩
  | cons op ops ih =>
    cases op with
    | send topic key v =>
        exact ih ⟨st.bus.append topic key v, st.exp1, st.exp2⟩
    | trigger =>
        exact ih ⟨st.bus, runCycle m₁ fv tv st.bus.log st.exp1,
          runCycle m₂ fv tv st.bus.log st.exp2⟩

/-- Symmetrically, the second experiment evolves as if it ran alone. -/
theorem runOps2_projects_snd (m₁ : MLModel σ₁) (m₂ : MLModel σ₂) (fv tv : ViewDef)
    (ops : List Op) (st : Sys2 σ₁ σ₂) :
    (runOps2 m₁ m₂ fv tv st ops).bus = (runOps m₂ fv tv ⟨st.bus, st.exp2⟩ ops).bus ∧
      (runOps2 m₁ m₂ fv tv st ops).exp2 = (runOps m₂ fv tv ⟨st.bus, st.exp2⟩ ops).exp := by
  induction ops generalizing st with
  | nil => exact ⟨rfl, rfl⟩
  | cons op ops ih =>
    cases op with
    | send topic key v =>
        exact ih ⟨st.bus.append topic key v, st.exp1, st.exp2⟩
    | trigger =>
        exact ih ⟨st.bus, runCycle m₁ fv tv st.bus.log st.exp1,
          runCycle m₂ fv tv st.bus.log st.exp2⟩

end Orac

namespace OracThm

open Orac

variable {σ σ₁ σ₂ : Type}

/-- C5: two independently configured experiments consuming the same feature view
from the same event stream are independent — after any interaction history
(producer sends and cycle triggers), each experiment's state equals the state it
would have reached running alone against the same history, so it is a function
of its own initial model and the shared events only, unaffected by the other
experiment's existence or configuration. -/
theorem c5_experiment_independence (m₁ : MLModel σ₁) (m₂ : MLModel σ₂)
    (s₁ : σ₁) (s₂ : σ₂) (fv tv : ViewDef) (ops : List Op) :
    (runOps2 m₁ m₂ fv tv ⟨Bus.empty, freshExp s₁, freshExp s₂⟩ ops).exp1
        = (runOps m₁ fv tv ⟨Bus.empty, freshExp s₁⟩ ops).exp ∧
      (runOps2 m₁ m₂ fv tv ⟨Bus.empty, freshExp s₁, freshExp s₂⟩ ops).exp2
        = (runOps m₂ fv tv ⟨Bus.empty, freshExp s₂⟩ ops).exp :=
  ⟨(runOps2_projects_fst m₁ m₂ fv tv ops _).2, (runOps2_projects_snd m₁ m₂ fv tv ops _).2⟩

end OracThm

namespace Orac

/-- The predict phase counts exactly one prediction per feature row. -/
theorem foldl_predictStep_n_predictions (m : MLModel σ) (rows : List Row) (e : Exp σ) :
    (rows.foldl (predictStep m) e).n_predictions = e.n_predictions + rows.length := by
  induction rows generalizing e with
  | nil => simp
  | cons r rows ih =>
      rw [List.foldl_cons, ih]
      simp only [predictStep, List.length_cons]
      omega

/-- The learn phase never counts predictions. -/
theorem foldl_learnStep_n_predictions (m : MLModel σ) (rows : List Row) (e : Exp σ) :
    (rows.foldl (learnStep m) e).n_predictions = e.n_predictions := by
  induction rows generalizing e with
  | nil => rfl
  | cons r rows ih =>
      rw [List.foldl_cons, ih]
      unfold learnStep
      cases e.pending.find? (fun p => p.key == r.key) <;> rfl

/-- One cycle makes one prediction per new feature row. -/
theorem runCycle_n_predictions (m : MLModel σ) (fv tv : ViewDef) (log : List Record)
    (e : Exp σ) :
    (runCycle m fv tv log e).n_predictions
      = e.n_predictions + (evalView fv e.cursor log).length := by
  unfold runCycle
  rw [foldl_learnStep_n_predictions, foldl_predictStep_n_predictions]

end Orac

namespace OracThm

open Orac

variable {σ : Type}

/-- C8: creating an experiment immediately runs one progressive-learning cycle
for it through the project's job runner; with a synchronous runner the state
returned by the creation call is one cycle from fresh over the log as it stood
at creation time, so `n_predictions` already equals the number of feature-view
rows present in the log — in particular, the ten features of Scenario A are
reflected before the creation call returns. -/
theorem c8_create_runs_cycle (m : MLModel σ) (fv tv : ViewDef) (bus : Bus) (s : σ)
    (x : Nat → Nat) :
    (createAndRunSync m fv tv bus s).n_predictions = (evalView fv none bus.log).length ∧
      createAndRunSync m featView targView (busA x) s = stateA m s x := by
  constructor
  · unfold createAndRunSync
    rw [runCycle_n_predictions]
    simp [freshExp]
  · rfl

end OracThm

namespace OracThm

open OracApi

/-- C6: when the creation request reaches model validation (project exists,
payload decodes and deserializes), the uploaded model is accepted — an
experiment row is persisted — if and only if the deserialized object
structurally exposes the two callable members `predict` and `learn`; when the
check fails the request is rejected with the 400 validation error and the
database is unchanged (no experiment record persisted). -/
theorem c6_model_validation (b64 : String → Option (List Nat))
    (loads : List Nat → Option PyObj) (dumps : PyObj → List Nat) (db : DB)
    (req : ExperimentReq) (bs : List Nat) (obj : PyObj)
    (hproj : req.project_name ∈ db.projects)
    (hb : b64 req.model = some bs) (hl : loads bs = some obj) :
    ((∃ e db', create_experiment b64 loads dumps db req = (.created e, db'))
        ↔ isModelInstance obj = true)
      ∧ (isModelInstance obj = false →
          create_experiment b64 loads dumps db req = (.validationError, db)) := by
  cases hm : isModelInstance obj with
  | true => simp [create_experiment, hproj, hb, hl, hm]
  | false => simp [create_experiment, hproj, hb, hl, hm]

/-- C6 witness: a concrete request whose deserialized object lacks a callable
`learn` member is rejected with the validation error and nothing is stored. -/
theorem c6_model_validation_witness :
    ("proj" ∈ (⟨["proj"], []⟩ : DB).projects)
      ∧ ((fun _ => some [0]) "payload" = some ([0] : List Nat))
      ∧ ((fun _ => some (⟨[("predict", true), ("learn", false)]⟩ : PyObj)) ([0] : List Nat)
          = some (⟨[("predict", true), ("learn", false)]⟩ : PyObj))
      ∧ (((∃ e db', create_experiment (fun _ => some [0])
              (fun _ => some ⟨[("predict", true), ("learn", false)]⟩) (fun _ => [7])
              ⟨["proj"], []⟩ ⟨"e1", "proj", "fs", "payload"⟩ = (.created e, db'))
            ↔ isModelInstance ⟨[("predict", true), ("learn", false)]⟩ = true)
          ∧ (isModelInstance (⟨[("predict", true), ("learn", false)]⟩ : PyObj) = false →
              create_experiment (fun _ => some [0])
                (fun _ => some ⟨[("predict", true), ("learn", false)]⟩) (fun _ => [7])
                ⟨["proj"], []⟩ ⟨"e1", "proj", "fs", "payload"⟩
                  = (.validationError, ⟨["proj"], []⟩))) :=
  ⟨by simp, rfl, rfl,
    c6_model_validation (fun _ => some [0])
      (fun _ => some ⟨[("predict", true), ("learn", false)]⟩) (fun _ => [7])
      ⟨["proj"], []⟩ ⟨"e1", "proj", "fs", "payload"⟩ [0]
      ⟨[("predict", true), ("learn", false)]⟩ (by simp) rfl rfl⟩

/-- C7 counterexample: calling unpause for a nonexistent experiment name does
not surface a NotFound error — the handler dereferences the missing record and
the observed outcome is an unhandled attribute failure. -/
theorem c7_counterexample :
    unpause_experiment ⟨[], []⟩ "ghost" = UnpauseResult.attributeError ∧
      unpause_experiment ⟨[], []⟩ "ghost" ≠ UnpauseResult.notFound := by
  exact ⟨rfl, by simp [unpause_experiment]⟩

/-- C7 amended: `create_experiment` with a nonexistent project name surfaces
NotFound immediately, but `unpause_experiment` with a nonexistent experiment
name does not surface NotFound — `session.get` returns `None` and the handler's
`experiment.project` access raises an unhandled AttributeError. -/
theorem c7_missing_entities (b64 : String → Option (List Nat))
    (loads : List Nat → Option PyObj) (dumps : PyObj → List Nat) (db : DB)
    (req : ExperimentReq) (name : String)
    (hp : req.project_name ∉ db.projects)
    (he : db.experiments.find? (fun e => e.name == name) = none) :
    create_experiment b64 loads dumps db req = (.notFound, db)
      ∧ unpause_experiment db name = .attributeError := by
  unfold create_experiment unpause_experiment
  rw [if_neg hp, he]
  exact ⟨rfl, rfl⟩

/-- C7 witness: concrete empty storage — creation against a missing project is
a 404, unpause of a missing experiment is the attribute failure. -/
theorem c7_missing_entities_witness :
    (("nope" : String) ∉ (⟨[], []⟩ : DB).projects)
      ∧ ((⟨[], []⟩ : DB).experiments.find? (fun e => e.name == "ghost") = none)
      ∧ (create_experiment (fun _ => some [0]) (fun _ => none) (fun _ => [])
            ⟨[], []⟩ ⟨"e1", "nope", "fs", "mdl"⟩ = (.notFound, ⟨[], []⟩)
          ∧ unpause_experiment ⟨[], []⟩ "ghost" = .attributeError) :=
  ⟨by simp, rfl,
    c7_missing_entities (fun _ => some [0]) (fun _ => none) (fun _ => [])
      ⟨[], []⟩ ⟨"e1", "nope", "fs", "mdl"⟩ "ghost" (by simp) rfl⟩

/-- C9: the project-existence check precedes model deserialization — a request
naming a nonexistent project yields NotFound with the database unchanged, and
the outcome is identical for every decode/deserialize/serialize capability, so
the model bytes are never deserialized on that path. -/
theorem c9_project_check_first (b64 b64' : String → Option (List Nat))
    (loads loads' : List Nat → Option PyObj) (dumps dumps' : PyObj → List Nat)
    (db : DB) (req : ExperimentReq) (hp : req.project_name ∉ db.projects) :
    create_experiment b64 loads dumps db req = (.notFound, db)
      ∧ create_experiment b64 loads dumps db req
          = create_experiment b64' loads' dumps' db req := by
  unfold create_experiment
  rw [if_neg hp, if_neg hp]
  exact ⟨rfl, rfl⟩

/-- C9 witness: with a missing project, a request whose payload would not even
decode gives the same NotFound outcome as one that would decode fine. -/
theorem c9_project_check_first_witness :
    (("nope" : String) ∉ (⟨["other"], []⟩ : DB).projects)
      ∧ (create_experiment (fun _ => none) (fun _ => none) (fun _ => [])
            ⟨["other"], []⟩ ⟨"e1", "nope", "fs", "junk"⟩ = (.notFound, ⟨["other"], []⟩)
          ∧ create_experiment (fun _ => none) (fun _ => none) (fun _ => [])
              ⟨["other"], []⟩ ⟨"e1", "nope", "fs", "junk"⟩
            = create_experiment (fun _ => some [1]) (fun _ => some ⟨[]⟩) (fun _ => [2])
                ⟨["other"], []⟩ ⟨"e1", "nope", "fs", "junk"⟩) :=
  ⟨by simp, c9_project_check_first (fun _ => none) (fun _ => some [1]) (fun _ => none)
    (fun _ => some ⟨[]⟩) (fun _ => []) (fun _ => [2]) ⟨["other"], []⟩
    ⟨"e1", "nope", "fs", "junk"⟩ (by simp)⟩

/-- C10: for every accepted creation request, the persisted `model_state` is the
re-serialization (`dill.dumps`) of the object deserialized (`dill.loads` after
base64 decoding) from the uploaded payload — the deserialize-then-serialize
round-trip of the upload, not the raw uploaded bytes. -/
theorem c10_model_state_roundtrip (b64 : String → Option (List Nat))
    (loads : List Nat → Option PyObj) (dumps : PyObj → List Nat) (db : DB)
    (req : ExperimentReq) (bs : List Nat) (obj : PyObj)
    (hproj : req.project_name ∈ db.projects)
    (hb : b64 req.model = some bs) (hl : loads bs = some obj)
    (hm : isModelInstance obj = true) :
    create_experiment b64 loads dumps db req
      = (.created ⟨req.name, req.project_name, req.feature_set_name, dumps obj⟩,
          ⟨db.projects, db.experiments
            ++ [⟨req.name, req.project_name, req.feature_set_name, dumps obj⟩]⟩) := by
  simp [create_experiment, hproj, hb, hl, hm]

/-- C10 witness: a concrete accepted request stores `dumps obj` (here `[7]`),
not the uploaded payload. -/
theorem c10_model_state_roundtrip_witness :
    ("proj" ∈ (⟨["proj"], []⟩ : DB).projects)
      ∧ (isModelInstance (⟨[("predict", true), ("learn", true)]⟩ : PyObj) = true)
      ∧ create_experiment (fun _ => some [0])
          (fun _ => some ⟨[("predict", true), ("learn", true)]⟩) (fun _ => [7])
          ⟨["proj"], []⟩ ⟨"e1", "proj", "fs", "payload"⟩
        = (.created ⟨"e1", "proj", "fs", [7]⟩, ⟨["proj"], [⟨"e1", "proj", "fs", [7]⟩]⟩) :=
  ⟨by simp, rfl,
    c10_model_state_roundtrip (fun _ => some [0])
      (fun _ => some ⟨[("predict", true), ("learn", true)]⟩) (fun _ => [7])
      ⟨["proj"], []⟩ ⟨"e1", "proj", "fs", "payload"⟩ [0]
      ⟨[("predict", true), ("learn", true)]⟩ (by simp) rfl rfl rfl⟩

end OracThm
